import Mathlib

/-!
# Scrypt parameter calibration (`abcd::ScryptSnrp`, `src/Scrypt.cpp`)

A shallow embedding of `ScryptSnrp::createSnrpFromTime`, `ScryptSnrp::hash`,
`ScryptSnrp::create` and `usernameSnrp`, followed by the properties established about them.

Conventions of the embedding:

* `unsigned long` and `unsigned long long` are 64-bit words: a natural number with an
  explicit `% 2 ^ 64` wherever the source multiplies or adds.
* A `double` is an exact rational (`ℚ`); `(unsigned long) x` is truncation toward zero.
  For `totalTime > 0` every double the function forms is a non-negative quotient
  `250000 / (k * totalTime)` with `k ∈ {1, 8, 32}`, or a small integer.  `totalTime = 0`
  divides by zero in the source (an infinite quotient whose conversion to an integer is
  undefined) and is outside the embedding: every property of `createSnrpFromTime` below
  assumes `0 < totalTime`.
* `1 << nShift` is the `int` shift of the source, which agrees with `2 ^ nShift` for
  `nShift < 31`; the exponent never exceeds 17 (`calibrate_closed`).
-/

namespace abcd

/-! ## Constants (lines 18-30) -/

def SCRYPT_DEFAULT_SERVER_N : Nat := 16384
def SCRYPT_DEFAULT_SERVER_R : Nat := 1
def SCRYPT_DEFAULT_SERVER_P : Nat := 1
def SCRYPT_DEFAULT_CLIENT_N_SHIFT : Nat := 14
def SCRYPT_DEFAULT_CLIENT_N : Nat := 1 <<< SCRYPT_DEFAULT_CLIENT_N_SHIFT
def SCRYPT_DEFAULT_CLIENT_R : Nat := 1
def SCRYPT_DEFAULT_CLIENT_P : Nat := 1
def SCRYPT_MIN_CLIENT_R : Nat := 8
def SCRYPT_MAX_CLIENT_N_SHIFT : Nat := 17
def SCRYPT_MAX_CLIENT_N : Nat := 1 <<< SCRYPT_MAX_CLIENT_N_SHIFT
def SCRYPT_TARGET_USECONDS : Nat := 250000
def SCRYPT_DEFAULT_SALT_LENGTH : Nat := 32

/-! ## Data model -/

/-- A `DataChunk` (`std::vector<uint8_t>`): a list of bytes. -/
abbrev DataChunk := List (Fin 256)

/-- Modelled from the spec: the `ScryptSnrp` structure, whose declaration (`Scrypt.hpp`) is
not among the sources.  The spec gives the fields `salt` (bytes), `N`, `r`, `p` (unsigned);
the aggregate initialisers at lines 200-223 give their order. -/
structure ScryptSnrp where
  salt : DataChunk
  n : Nat
  r : Nat
  p : Nat
  deriving DecidableEq, Repr

/-- Modelled from the spec: bit width of the `r` and `p` fields, declared in `Scrypt.hpp`
(not among the sources); they are unsigned 32-bit integers, the parameter type of the
derivation primitive. -/
def fieldBits : Nat := 32

/-- The conversion `(unsigned long) x` of a non-negative double: truncation toward zero. -/
def toULong (x : ℚ) : Nat := ⌊x⌋₊

/-! ## `createSnrpFromTime`, lines 39-82: the estimate -/

/-- Lines 39-82 of `createSnrpFromTime`: the values of `nShift`, `r` and `p` on entry to
the memory loop. -/
def estimate (totalTime : Nat) : Nat × Nat × Nat :=
  let fN : ℚ := 1
  let fP : ℚ := (SCRYPT_DEFAULT_CLIENT_P : ℚ)
  let fEstTargetTimeElapsed : ℚ := (totalTime : ℚ)
  let maxNShift : ℚ := ((1 + SCRYPT_MAX_CLIENT_N_SHIFT - SCRYPT_DEFAULT_CLIENT_N_SHIFT : Nat) : ℚ)
  let fR : ℚ := (SCRYPT_TARGET_USECONDS : ℚ) / fEstTargetTimeElapsed
  let rRemainder : ℚ := ((toULong fR % SCRYPT_MIN_CLIENT_R : Nat) : ℚ)
  let est : ℚ × ℚ × ℚ :=
    if fR > (SCRYPT_MIN_CLIENT_R : ℚ) then
      let fR1 : ℚ := (SCRYPT_MIN_CLIENT_R : ℚ)
      let fEst1 : ℚ := fEstTargetTimeElapsed * (SCRYPT_MIN_CLIENT_R : ℚ)
      let fN1 : ℚ := (SCRYPT_TARGET_USECONDS : ℚ) / fEst1
      let fR2 : ℚ := if fN1 < 2 then fR1 + rRemainder else fR1
      if fN1 > maxNShift then
        let fEst2 : ℚ := fEst1 * maxNShift
        (fR2, maxNShift, (SCRYPT_TARGET_USECONDS : ℚ) / fEst2)
      else
        (fR2, fN1, fP)
    else
      ((SCRYPT_MIN_CLIENT_R : ℚ), fN, fP)
  let fN3 : ℚ := if est.2.1 ≥ 1 then est.2.1 else 1
  let nShift : Nat := ((SCRYPT_DEFAULT_CLIENT_N_SHIFT - 1) + toULong fN3) % 2 ^ 64
  (nShift, toULong est.1 % 2 ^ fieldBits, toULong est.2.2 % 2 ^ fieldBits)

/-! ## `createSnrpFromTime`, lines 84-108: the memory loop -/

/-- The inner loop `for (; r >= 1; r--)` of lines 89-102, started at `r`: the value of `r`
and of `breakout` when it ends. -/
def memInner (nShift : Nat) : Nat → Nat × Bool
  | 0 => (0, false)
  | r + 1 =>
    let nTemp : Nat := (1 <<< nShift) % 2 ^ 64
    if (128 * nTemp * (r + 1)) % 2 ^ 64 > 0x1F400000 then
      memInner nShift r
    else
      (r + 1, true)

/-- The loop `for (; nShift > 1; nShift--)` of lines 85-108, started at `nShift` and `r`:
the values of `nShift` and `r` when it ends. -/
def memLoop : Nat → Nat → Nat × Nat
  | 0, r => (0, r)
  | 1, r => (1, r)
  | k + 2, r =>
    let r1 : Nat := if r = 0 then 1 else r
    let inner := memInner (k + 2) r1
    if inner.2 then (k + 2, inner.1) else memLoop (k + 1) inner.1

/-! ## `createSnrpFromTime`, lines 110-132: the overflow loop -/

/-- The inner loop `for (; p >= 1; p--)` of lines 115-126, started at `p`: the value of `p`
and of `breakout` when it ends. -/
def ovInner (nShift r : Nat) : Nat → Nat × Bool
  | 0 => (0, false)
  | p + 1 =>
    if (r * nShift) % 2 ^ 64 > 0x40000000 then
      ovInner nShift r p
    else
      (p + 1, true)

/-- The loop `for (; r > 1; r--)` of lines 111-132, started at `r` and `p`: the values of
`r` and `p` when it ends. -/
def ovLoop (nShift : Nat) : Nat → Nat → Nat × Nat
  | 0, p => (0, p)
  | 1, p => (1, p)
  | k + 2, p =>
    let p1 : Nat := if p = 0 then 1 else p
    let inner := ovInner nShift (k + 2) p1
    if inner.2 then (k + 2, inner.1) else ovLoop nShift (k + 1) inner.1

/-! ## `createSnrpFromTime`, whole function -/

/-- Lines 39-135 of `createSnrpFromTime`: the final `(nShift, r, p)`, after the estimate,
the two loops and the floor at lines 133-135. -/
def calibrate (totalTime : Nat) : Nat × Nat × Nat :=
  let e := estimate totalTime
  let m := memLoop e.1 e.2.1
  let o := ovLoop m.1 m.2 e.2.2
  let r : Nat := if o.1 = 0 then 1 else o.1
  let p : Nat := if o.2 = 0 then 1 else o.2
  let nShift : Nat := if m.1 = 0 then 1 else m.1
  (nShift, r, p)

/-- The cost exponent `nShift` that `createSnrpFromTime` ends with. -/
def calibShift (totalTime : Nat) : Nat := (calibrate totalTime).1

/-- `ScryptSnrp::createSnrpFromTime` (lines 32-144): `n`, `r` and `p` are overwritten,
`salt` is not touched. -/
def createSnrpFromTime (s : ScryptSnrp) (totalTime : Nat) : ScryptSnrp :=
  let c := calibrate totalTime
  { s with n := 1 <<< c.1, r := c.2.1, p := c.2.2 }

/-- Total cost `n * r * p` of a parameter set. -/
def totalCost (s : ScryptSnrp) : Nat := s.n * s.r * s.p

/-- The four-region closed form of `calibrate`, in integer arithmetic
(`/` is truncating division): the final `(nShift, r, p)` for a measured time `t`. -/
def closedForm (t : Nat) : Nat × Nat × Nat :=
  if 31250 ≤ t then (14, 8, 1)
  else if 15625 < t then (14, 250000 / t, 1)
  else if 7813 ≤ t then (13 + 31250 / t, 8, 1)
  else (17, 8, 250000 / (32 * t))

/-! ## External collaborators of `hash` and `create` -/

/-- A `struct timeval`: seconds and microseconds, both signed. -/
structure Timeval where
  tv_sec : Int
  tv_usec : Int
  deriving DecidableEq, Repr

/-- Error codes: the one `hash` raises itself, and any code surfaced by a collaborator. -/
inductive ErrorCode where
  | ABC_CC_ScryptError : ErrorCode
  | other (code : Nat) : ErrorCode
  deriving DecidableEq, Repr

/-- Modelled from the spec: the `Status` type (`Status.hpp`, not among the sources): success,
or a failure carrying its error code.  `ABC_CHECK(e)`, also missing, returns the status of
`e` from the enclosing function when it is a failure ("fails with whatever error the
Benchmark Runner or RNG surfaced"). -/
inductive Status where
  | ok : Status
  | error (code : ErrorCode) : Status
  deriving DecidableEq, Repr

/-- One call to an external collaborator, with the arguments passed. -/
inductive Event where
  | randomData (size : Nat) : Event
  | gettimeofday : Event
  | crypto_scrypt (passwd salt : DataChunk) (N r p buflen : Nat) : Event
  deriving DecidableEq, Repr

/-- The external collaborators, as opaque functions.

* `randomData result size`: the status returned and the content of `result` afterwards.
* `crypto_scrypt passwd salt N r p buflen`: the return code and the content of the
  `buflen`-byte output buffer afterwards (the primitive writes through `out.data()` and
  cannot resize the vector, hence the length in the type).
* `timerStart`, `timerEnd`: what the two `gettimeofday` calls of `hash` store. -/
structure Env where
  randomData : DataChunk → Nat → Status × DataChunk
  crypto_scrypt : DataChunk → DataChunk → Nat → Nat → Nat → (buflen : Nat) →
    Int × { b : DataChunk // b.length = buflen }
  timerStart : Timeval
  timerEnd : Timeval

/-! ## `hash` (lines 166-195) -/

/-- Lines 180-182: the elapsed time in microseconds, in `unsigned long` arithmetic. -/
def elapsedMicros (timerStart timerEnd : Timeval) : Nat :=
  let t0 : Int := (1000000 * (timerEnd.tv_sec - timerStart.tv_sec)) % 2 ^ 64
  let t1 : Int := (t0 + timerEnd.tv_usec) % 2 ^ 64
  let t2 : Int := (t1 - timerStart.tv_usec) % 2 ^ 64
  t2.toNat

/-- What `hash` leaves behind: the returned status, the content of `result`, the content
of `*time` (`none` for a null pointer), the object itself (the method is `const`) and the
external calls made, in order. -/
structure HashOutcome where
  status : Status
  result : DataChunk
  time : Option Nat
  self : ScryptSnrp
  trace : List Event

/-- `ScryptSnrp::hash` (lines 166-195).  `time` is the pointer argument: `none` for
`nullptr`, `some v` for a pointer to a cell holding `v`. -/
def hash (env : Env) (self : ScryptSnrp) (result : DataChunk) (data : DataChunk)
    (time : Option Nat) (size : Nat) : HashOutcome :=
  let call := env.crypto_scrypt data self.salt self.n self.r self.p size
  let rc : Int := call.1
  let out : DataChunk := call.2.val
  let totalTime : Nat := elapsedMicros env.timerStart env.timerEnd
  let time1 : Option Nat := time.map (fun _ => totalTime)
  let trace : List Event :=
    [Event.gettimeofday, Event.crypto_scrypt data self.salt self.n self.r self.p size,
      Event.gettimeofday]
  if rc ≠ 0 then
    { status := Status.error ErrorCode.ABC_CC_ScryptError, result := result, time := time1,
      self := self, trace := trace }
  else
    { status := Status.ok, result := out, time := time1, self := self, trace := trace }

/-! ## `create` (lines 146-164) -/

/-- What `create` leaves behind: the returned status, the object and the external calls
made, in order. -/
structure CreateOutcome where
  status : Status
  self : ScryptSnrp
  trace : List Event

/-- `ScryptSnrp::create` (lines 146-164).  `defaultSize` is the default value of the `size`
parameter of `hash`, declared in `Scrypt.hpp` (not among the sources).  The local
`totalTime` is uninitialised when its address is passed to `hash`; its indeterminate
content, never read, is taken as `0`. -/
def create (env : Env) (self : ScryptSnrp) (defaultSize : Nat) : CreateOutcome :=
  let rd := env.randomData self.salt SCRYPT_DEFAULT_SALT_LENGTH
  let s1 : ScryptSnrp := { self with salt := rd.2 }
  match rd.1 with
  | Status.error c =>
    { status := Status.error c, self := s1,
      trace := [Event.randomData SCRYPT_DEFAULT_SALT_LENGTH] }
  | Status.ok =>
    let s2 : ScryptSnrp :=
      { s1 with n := SCRYPT_DEFAULT_CLIENT_N, r := SCRYPT_DEFAULT_CLIENT_R,
                p := SCRYPT_DEFAULT_CLIENT_P }
    let h := hash env s2 [] s2.salt (some 0) defaultSize
    let totalTime : Nat := h.time.getD 0
    match h.status with
    | Status.error c =>
      { status := Status.error c, self := s2,
        trace := Event.randomData SCRYPT_DEFAULT_SALT_LENGTH :: h.trace }
    | Status.ok =>
      { status := Status.ok, self := createSnrpFromTime s2 totalTime,
        trace := Event.randomData SCRYPT_DEFAULT_SALT_LENGTH :: h.trace }


/-! ## The correction passes in isolation -/

/-- Lines 85-108 followed by the floor of lines 133 and 135, started at `nShift` and `r`:
the final `(nShift, r)`. -/
def memCorrection (nShift r : Nat) : Nat × Nat :=
  let m := memLoop nShift r
  (if m.1 = 0 then 1 else m.1, if m.2 = 0 then 1 else m.2)

/-- The static `mainnet` of `usernameSnrp` (lines 200-211). -/
def mainnet : ScryptSnrp :=
  { salt :=
      [0xb5, 0x86, 0x5f, 0xfb, 0x9f, 0xa7, 0xb3, 0xbf,
       0xe4, 0xb2, 0x38, 0x4d, 0x47, 0xce, 0x83, 0x1e,
       0xe2, 0x2a, 0x4a, 0x9d, 0x5c, 0x34, 0xc7, 0xef,
       0x7d, 0x21, 0x46, 0x7c, 0xc7, 0x58, 0xf8, 0x1b]
    n := SCRYPT_DEFAULT_SERVER_N
    r := SCRYPT_DEFAULT_SERVER_R
    p := SCRYPT_DEFAULT_SERVER_P }

/-- The static `testnet` of `usernameSnrp` (lines 212-223). -/
def testnet : ScryptSnrp :=
  { salt :=
      [0xa5, 0x96, 0x3f, 0x3b, 0x9c, 0xa6, 0xb3, 0xbf,
       0xe4, 0xb2, 0x36, 0x42, 0x37, 0xfe, 0x87, 0x1e,
       0xf2, 0x2a, 0x4a, 0x9d, 0x4c, 0x34, 0xa7, 0xef,
       0x3d, 0x21, 0x47, 0x8c, 0xc7, 0x58, 0xf8, 0x1b]
    n := SCRYPT_DEFAULT_SERVER_N
    r := SCRYPT_DEFAULT_SERVER_R
    p := SCRYPT_DEFAULT_SERVER_P }

/-- The function `usernameSnrp` (line 225).  `isTestnet` is the value returned by the
external `isTestnet()` (`Testnet.hpp`, not among the sources). -/
def usernameSnrp (isTestnet : Bool) : ScryptSnrp :=
  if isTestnet then testnet else mainnet

/-- The number a byte string spells when read as big-endian base-256 digits, i.e. the
value of its hexadecimal rendering. -/
def bigEndian (d : DataChunk) : Nat :=
  d.foldl (fun acc b => acc * 256 + b.val) 0

/-! ## A sample environment -/

/-- A sample environment: a random source returning the requested number of zero bytes, a
primitive that succeeds and fills the buffer with the byte 7, and a clock advancing by
0.3 s between the two readings. -/
def sampleEnv : Env where
  randomData := fun _ size => (Status.ok, List.replicate size 0)
  crypto_scrypt := fun _ _ _ _ _ buflen => (0, ⟨List.replicate buflen 7, List.length_replicate _ _⟩)
  timerStart := ⟨100, 900000⟩
  timerEnd := ⟨101, 200000⟩

/-! ## Lemmas on the double-to-integer conversion -/

theorem toULong_natCast_div (a b : Nat) : toULong ((a : ℚ) / (b : ℚ)) = a / b := by
  unfold toULong
  exact Nat.floor_div_eq_div a b

theorem toULong_natCast (a : Nat) : toULong (a : ℚ) = a := by
  unfold toULong
  exact Nat.floor_natCast a

/-! ## The estimate, region by region -/

theorem estimate_slow (t : Nat) (h : 31250 ≤ t) : estimate t = (14, 8, 1) := by
  have ht : (0 : ℚ) < (t : ℚ) := by exact_mod_cast (by omega : 0 < t)
  have hc : ¬ (((250000 : Nat) : ℚ) / (t : ℚ) > ((8 : Nat) : ℚ)) := by
    rw [gt_iff_lt, lt_div_iff₀ ht, not_lt]
    exact_mod_cast (by omega : 250000 ≤ 8 * t)
  have h1 : (1 : ℚ) ≥ 1 := le_rfl
  unfold estimate
  simp only [SCRYPT_TARGET_USECONDS, SCRYPT_MIN_CLIENT_R, SCRYPT_DEFAULT_CLIENT_P,
    SCRYPT_MAX_CLIENT_N_SHIFT, SCRYPT_DEFAULT_CLIENT_N_SHIFT, fieldBits, Nat.reduceAdd,
    Nat.reduceSub, hc, h1, if_true, if_false]
  rw [← Nat.cast_one, toULong_natCast, toULong_natCast]
  rfl

theorem estimate_mid (t : Nat) (h1 : 15625 < t) (h2 : t < 31250) :
    estimate t = (14, 250000 / t, 1) := by
  have ht : (0 : ℚ) < (t : ℚ) := by exact_mod_cast (by omega : 0 < t)
  have ht8 : (0 : ℚ) < (t : ℚ) * ((8 : Nat) : ℚ) := by positivity
  have hc : ((250000 : Nat) : ℚ) / (t : ℚ) > ((8 : Nat) : ℚ) := by
    rw [gt_iff_lt, lt_div_iff₀ ht]
    exact_mod_cast (by omega : 8 * t < 250000)
  have hn2 : ((250000 : Nat) : ℚ) / ((t : ℚ) * ((8 : Nat) : ℚ)) < 2 := by
    rw [div_lt_iff₀ ht8]
    exact_mod_cast (by omega : 250000 < 2 * (t * 8))
  have hn4 : ¬ (((250000 : Nat) : ℚ) / ((t : ℚ) * ((8 : Nat) : ℚ)) > ((4 : Nat) : ℚ)) := by
    rw [gt_iff_lt, lt_div_iff₀ ht8, not_lt]
    exact_mod_cast (by omega : 250000 ≤ 4 * (t * 8))
  have hn1 : ((250000 : Nat) : ℚ) / ((t : ℚ) * ((8 : Nat) : ℚ)) ≥ 1 := by
    rw [ge_iff_le, le_div_iff₀ ht8]
    exact_mod_cast (by omega : 1 * (t * 8) ≤ 250000)
  have q1 : 250000 / (t * 8) = 1 := by
    apply Nat.div_eq_of_lt_le <;> omega
  have q2 : 8 ≤ 250000 / t := by
    rw [Nat.le_div_iff_mul_le (by omega)]; omega
  have q3 : 250000 / t < 16 := by
    rw [Nat.div_lt_iff_lt_mul (by omega)]; omega
  unfold estimate
  simp only [SCRYPT_TARGET_USECONDS, SCRYPT_MIN_CLIENT_R, SCRYPT_DEFAULT_CLIENT_P,
    SCRYPT_MAX_CLIENT_N_SHIFT, SCRYPT_DEFAULT_CLIENT_N_SHIFT, fieldBits, Nat.reduceAdd,
    Nat.reduceSub, hc, hn2, hn4, hn1, if_true, if_false]
  rw [← Nat.cast_mul, toULong_natCast_div, toULong_natCast_div, ← Nat.cast_add,
    toULong_natCast, toULong_natCast, q1]
  have q4 : (8 + 250000 / t % 8) % 2 ^ 32 = 250000 / t := by omega
  rw [q4]
  rfl

theorem estimate_fast (t : Nat) (h1 : 7813 ≤ t) (h2 : t ≤ 15625) :
    estimate t = (13 + 31250 / t, 8, 1) := by
  have ht : (0 : ℚ) < (t : ℚ) := by exact_mod_cast (by omega : 0 < t)
  have ht8 : (0 : ℚ) < (t : ℚ) * ((8 : Nat) : ℚ) := by positivity
  have hc : ((250000 : Nat) : ℚ) / (t : ℚ) > ((8 : Nat) : ℚ) := by
    rw [gt_iff_lt, lt_div_iff₀ ht]
    exact_mod_cast (by omega : 8 * t < 250000)
  have hn2 : ¬ (((250000 : Nat) : ℚ) / ((t : ℚ) * ((8 : Nat) : ℚ)) < 2) := by
    rw [div_lt_iff₀ ht8, not_lt]
    exact_mod_cast (by omega : 2 * (t * 8) ≤ 250000)
  have hn4 : ¬ (((250000 : Nat) : ℚ) / ((t : ℚ) * ((8 : Nat) : ℚ)) > ((4 : Nat) : ℚ)) := by
    rw [gt_iff_lt, lt_div_iff₀ ht8, not_lt]
    exact_mod_cast (by omega : 250000 ≤ 4 * (t * 8))
  have hn1 : ((250000 : Nat) : ℚ) / ((t : ℚ) * ((8 : Nat) : ℚ)) ≥ 1 := by
    rw [ge_iff_le, le_div_iff₀ ht8]
    exact_mod_cast (by omega : 1 * (t * 8) ≤ 250000)
  have q1 : 250000 / (t * 8) = 31250 / t := by
    rw [Nat.mul_comm t 8, ← Nat.div_div_eq_div_mul]
  have q2 : 31250 / t < 4 := by
    rw [Nat.div_lt_iff_lt_mul (by omega)]; omega
  unfold estimate
  simp only [SCRYPT_TARGET_USECONDS, SCRYPT_MIN_CLIENT_R, SCRYPT_DEFAULT_CLIENT_P,
    SCRYPT_MAX_CLIENT_N_SHIFT, SCRYPT_DEFAULT_CLIENT_N_SHIFT, fieldBits, Nat.reduceAdd,
    Nat.reduceSub, hc, hn2, hn4, hn1, if_true, if_false]
  rw [← Nat.cast_mul, toULong_natCast_div, toULong_natCast, ← Nat.cast_one, toULong_natCast, q1]
  have q4 : (13 + 31250 / t) % 2 ^ 64 = 13 + 31250 / t := by
    generalize 31250 / t = q at q2 ⊢
    omega
  rw [q4]
  rfl

theorem estimate_max (t : Nat) (h1 : 1 ≤ t) (h2 : t ≤ 7812) :
    estimate t = (17, 8, 250000 / (32 * t)) := by
  have ht : (0 : ℚ) < (t : ℚ) := by exact_mod_cast (by omega : 0 < t)
  have ht8 : (0 : ℚ) < (t : ℚ) * ((8 : Nat) : ℚ) := by positivity
  have hc : ((250000 : Nat) : ℚ) / (t : ℚ) > ((8 : Nat) : ℚ) := by
    rw [gt_iff_lt, lt_div_iff₀ ht]
    exact_mod_cast (by omega : 8 * t < 250000)
  have hn2 : ¬ (((250000 : Nat) : ℚ) / ((t : ℚ) * ((8 : Nat) : ℚ)) < 2) := by
    rw [div_lt_iff₀ ht8, not_lt]
    exact_mod_cast (by omega : 2 * (t * 8) ≤ 250000)
  have hn4 : ((250000 : Nat) : ℚ) / ((t : ℚ) * ((8 : Nat) : ℚ)) > ((4 : Nat) : ℚ) := by
    rw [gt_iff_lt, lt_div_iff₀ ht8]
    exact_mod_cast (by omega : 4 * (t * 8) < 250000)
  have h4 : ((4 : Nat) : ℚ) ≥ 1 := by norm_num
  have q1 : t * 8 * 4 = 32 * t := by omega
  have q2 : 250000 / (32 * t) < 2 ^ 32 := by
    calc 250000 / (32 * t) ≤ 250000 := Nat.div_le_self _ _
      _ < 2 ^ 32 := by norm_num
  unfold estimate
  simp only [SCRYPT_TARGET_USECONDS, SCRYPT_MIN_CLIENT_R, SCRYPT_DEFAULT_CLIENT_P,
    SCRYPT_MAX_CLIENT_N_SHIFT, SCRYPT_DEFAULT_CLIENT_N_SHIFT, fieldBits, Nat.reduceAdd,
    Nat.reduceSub, hc, hn2, hn4, h4, if_true, if_false]
  rw [← Nat.cast_mul, ← Nat.cast_mul, toULong_natCast_div, toULong_natCast, toULong_natCast,
    q1, Nat.mod_eq_of_lt q2]
  rfl


/-! ## The correction loops on in-bound inputs -/

theorem memInner_of_le (k r : Nat)
    (h : (128 * ((1 <<< k) % 2 ^ 64) * (r + 1)) % 2 ^ 64 ≤ 0x1F400000) :
    memInner k (r + 1) = (r + 1, true) := by
  unfold memInner
  simp only
  rw [if_neg (Nat.not_lt.mpr h)]

theorem memLoop_of_le (k r : Nat)
    (h : (128 * ((1 <<< (k + 2)) % 2 ^ 64) * (r + 1)) % 2 ^ 64 ≤ 0x1F400000) :
    memLoop (k + 2) (r + 1) = (k + 2, r + 1) := by
  unfold memLoop
  simp only [Nat.succ_ne_zero, if_false, memInner_of_le (k + 2) r h, if_true]

theorem ovInner_of_le (k r p : Nat) (h : (r * k) % 2 ^ 64 ≤ 0x40000000) :
    ovInner k r (p + 1) = (p + 1, true) := by
  unfold ovInner
  rw [if_neg (Nat.not_lt.mpr h)]

theorem ovLoop_of_le (k r p : Nat) (h : (r * k) % 2 ^ 64 ≤ 0x40000000) :
    ovLoop k r (p + 1) = (r, p + 1) := by
  match r with
  | 0 => rfl
  | 1 => rfl
  | r + 2 =>
    unfold ovLoop
    simp only [Nat.succ_ne_zero, if_false, ovInner_of_le k (r + 2) p h, if_true]

/-- On an estimate with exponent in `[2, 17]`, `r` in `[1, 15]` and `p ≥ 1`, neither loop
nor the final floor changes anything. -/
theorem corrections_noop (k r p : Nat) (hk : 2 ≤ k) (hk17 : k ≤ 17) (hr : 1 ≤ r)
    (hr15 : r ≤ 15) (hp : 1 ≤ p) :
    memLoop k r = (k, r) ∧ ovLoop k r p = (r, p) := by
  obtain ⟨k, rfl⟩ : ∃ j, k = j + 2 := ⟨k - 2, by omega⟩
  obtain ⟨r, rfl⟩ : ∃ j, r = j + 1 := ⟨r - 1, by omega⟩
  obtain ⟨p, rfl⟩ : ∃ j, p = j + 1 := ⟨p - 1, by omega⟩
  constructor
  · apply memLoop_of_le
    have hk : k ≤ 15 := by omega
    interval_cases k <;> simp only [Nat.reduceAdd, Nat.reduceShiftLeft, Nat.reducePow, Nat.reduceMod, Nat.reduceMul] <;> omega
  · apply ovLoop_of_le
    have h1 : (r + 1) * (k + 2) ≤ 15 * 17 := Nat.mul_le_mul hr15 hk17
    omega

theorem calibrate_of_estimate (t k r p : Nat) (he : estimate t = (k, r, p)) (hk : 2 ≤ k)
    (hk17 : k ≤ 17) (hr : 1 ≤ r) (hr15 : r ≤ 15) (hp : 1 ≤ p) :
    calibrate t = (k, r, p) := by
  obtain ⟨hm, ho⟩ := corrections_noop k r p hk hk17 hr hr15 hp
  unfold calibrate
  simp only [he, hm, ho]
  rw [if_neg (by omega), if_neg (by omega), if_neg (by omega)]

/-- Closed form of the calibration: for every positive measured time the final
`(nShift, r, p)` is `closedForm t`. -/
theorem calibrate_closed (t : Nat) (ht : 0 < t) : calibrate t = closedForm t := by
  unfold closedForm
  split_ifs with h1 h2 h3
  · exact calibrate_of_estimate t 14 8 1 (estimate_slow t h1) (by omega) (by omega)
      (by omega) (by omega) (by omega)
  · have q2 : 8 ≤ 250000 / t := by
      rw [Nat.le_div_iff_mul_le (by omega)]; omega
    have q3 : 250000 / t < 16 := by
      rw [Nat.div_lt_iff_lt_mul (by omega)]; omega
    exact calibrate_of_estimate t 14 (250000 / t) 1 (estimate_mid t h2 (by omega)) (by omega)
      (by omega) (by omega) (by omega) (by omega)
  · have q2 : 2 ≤ 31250 / t := by
      rw [Nat.le_div_iff_mul_le (by omega)]; omega
    have q3 : 31250 / t < 4 := by
      rw [Nat.div_lt_iff_lt_mul (by omega)]; omega
    exact calibrate_of_estimate t (13 + 31250 / t) 8 1 (estimate_fast t h3 (by omega))
      (by omega) (by omega) (by omega) (by omega) (by omega)
  · have q2 : 1 ≤ 250000 / (32 * t) := by
      rw [Nat.le_div_iff_mul_le (by omega)]; omega
    exact calibrate_of_estimate t 17 8 (250000 / (32 * t)) (estimate_max t ht (by omega))
      (by omega) (by omega) (by omega) (by omega) q2


/-! ## Bounds on the closed form -/

theorem closedForm_bounds (t : Nat) (ht : 0 < t) :
    14 ≤ (closedForm t).1 ∧ (closedForm t).1 ≤ 17 ∧ 8 ≤ (closedForm t).2.1 ∧
      (closedForm t).2.1 ≤ 15 ∧ 1 ≤ (closedForm t).2.2 ∧ (closedForm t).2.2 ≤ 7812 := by
  unfold closedForm
  split_ifs with h1 h2 h3
  · simp
  · have q2 : 8 ≤ 250000 / t := by
      rw [Nat.le_div_iff_mul_le (by omega)]; omega
    have q3 : 250000 / t < 16 := by
      rw [Nat.div_lt_iff_lt_mul (by omega)]; omega
    dsimp only
    omega
  · have q2 : 2 ≤ 31250 / t := by
      rw [Nat.le_div_iff_mul_le (by omega)]; omega
    have q3 : 31250 / t < 4 := by
      rw [Nat.div_lt_iff_lt_mul (by omega)]; omega
    dsimp only
    omega
  · have q2 : 1 ≤ 250000 / (32 * t) := by
      rw [Nat.le_div_iff_mul_le (by omega)]; omega
    have q3 : 250000 / (32 * t) < 7813 := by
      rw [Nat.div_lt_iff_lt_mul (by omega)]; omega
    dsimp only
    omega

theorem createSnrpFromTime_n (s : ScryptSnrp) (t : Nat) :
    (createSnrpFromTime s t).n = 2 ^ calibShift t := by
  simp [createSnrpFromTime, calibShift, Nat.one_shiftLeft]

theorem createSnrpFromTime_r (s : ScryptSnrp) (t : Nat) :
    (createSnrpFromTime s t).r = (calibrate t).2.1 := rfl

theorem createSnrpFromTime_p (s : ScryptSnrp) (t : Nat) :
    (createSnrpFromTime s t).p = (calibrate t).2.2 := rfl

/-! ## Properties of `createSnrpFromTime` -/

/-- C1: for every measured time `t > 0`, `createSnrpFromTime` stores `n = 2 ^ shift` for
its cost exponent `shift`, with `1 ≤ shift ≤ 17` (so `2 ≤ n ≤ 131072`), and stores
`r ≥ 1` and `p ≥ 1`. -/
theorem createSnrpFromTime_ranges (s : ScryptSnrp) (t : Nat) (ht : 0 < t) :
    (createSnrpFromTime s t).n = 2 ^ calibShift t ∧ 1 ≤ calibShift t ∧ calibShift t ≤ 17 ∧
      2 ≤ (createSnrpFromTime s t).n ∧ (createSnrpFromTime s t).n ≤ 131072 ∧
      1 ≤ (createSnrpFromTime s t).r ∧ 1 ≤ (createSnrpFromTime s t).p := by
  obtain ⟨b1, b2, b3, b4, b5, b6⟩ := closedForm_bounds t ht
  have hs : calibShift t = (closedForm t).1 := by rw [calibShift, calibrate_closed t ht]
  rw [createSnrpFromTime_n, createSnrpFromTime_r, createSnrpFromTime_p, calibrate_closed t ht, hs]
  have e1 : 2 ^ 1 ≤ 2 ^ (closedForm t).1 := Nat.pow_le_pow_right (by norm_num) (by omega)
  have e2 : 2 ^ (closedForm t).1 ≤ 2 ^ 17 := Nat.pow_le_pow_right (by norm_num) b2
  norm_num at e1 e2
  exact ⟨rfl, by omega, b2, e1, e2, by omega, b5⟩

theorem createSnrpFromTime_ranges_witness :
    0 < 250000 ∧ (createSnrpFromTime ⟨[], 0, 0, 0⟩ 250000).n = 2 ^ calibShift 250000 ∧
      1 ≤ calibShift 250000 ∧ calibShift 250000 ≤ 17 ∧
      2 ≤ (createSnrpFromTime ⟨[], 0, 0, 0⟩ 250000).n ∧
      (createSnrpFromTime ⟨[], 0, 0, 0⟩ 250000).n ≤ 131072 ∧
      1 ≤ (createSnrpFromTime ⟨[], 0, 0, 0⟩ 250000).r ∧
      1 ≤ (createSnrpFromTime ⟨[], 0, 0, 0⟩ 250000).p :=
  ⟨by decide, createSnrpFromTime_ranges ⟨[], 0, 0, 0⟩ 250000 (by decide)⟩

/-- C2: memory invariant: for every measured time `t > 0`, the stored `n` and `r` satisfy
`128 * n * r ≤ 0x1F400000`. -/
theorem createSnrpFromTime_memory (s : ScryptSnrp) (t : Nat) (ht : 0 < t) :
    128 * (createSnrpFromTime s t).n * (createSnrpFromTime s t).r ≤ 0x1F400000 := by
  obtain ⟨b1, b2, b3, b4, b5, b6⟩ := closedForm_bounds t ht
  have hs : calibShift t = (closedForm t).1 := by rw [calibShift, calibrate_closed t ht]
  rw [createSnrpFromTime_n, createSnrpFromTime_r, calibrate_closed t ht, hs]
  have e2 : 2 ^ (closedForm t).1 ≤ 2 ^ 17 := Nat.pow_le_pow_right (by norm_num) b2
  calc 128 * 2 ^ (closedForm t).1 * (closedForm t).2.1
      ≤ 128 * 2 ^ 17 * 15 := Nat.mul_le_mul (Nat.mul_le_mul_left _ e2) b4
    _ ≤ 0x1F400000 := by norm_num

theorem createSnrpFromTime_memory_witness :
    0 < 100 ∧ 128 * (createSnrpFromTime ⟨[], 0, 0, 0⟩ 100).n * (createSnrpFromTime ⟨[], 0, 0, 0⟩ 100).r
      ≤ 0x1F400000 :=
  ⟨by decide, createSnrpFromTime_memory ⟨[], 0, 0, 0⟩ 100 (by decide)⟩

/-- C3: overflow invariant: for every measured time `t > 0`, the expression the overflow
loop tests, `r * shift` with `shift` the cost exponent, is strictly below `0x40000000` at
the stored values. -/
theorem createSnrpFromTime_overflow (s : ScryptSnrp) (t : Nat) (ht : 0 < t) :
    (createSnrpFromTime s t).r * calibShift t < 0x40000000 ∧
      (createSnrpFromTime s t).n = 2 ^ calibShift t := by
  obtain ⟨b1, b2, b3, b4, b5, b6⟩ := closedForm_bounds t ht
  have hs : calibShift t = (closedForm t).1 := by rw [calibShift, calibrate_closed t ht]
  refine ⟨?_, createSnrpFromTime_n s t⟩
  rw [createSnrpFromTime_r, calibrate_closed t ht, hs]
  calc (closedForm t).2.1 * (closedForm t).1 ≤ 15 * 17 := Nat.mul_le_mul b4 b2
    _ < 0x40000000 := by norm_num

theorem createSnrpFromTime_overflow_witness :
    0 < 20000 ∧ (createSnrpFromTime ⟨[], 0, 0, 0⟩ 20000).r * calibShift 20000 < 0x40000000 ∧
      (createSnrpFromTime ⟨[], 0, 0, 0⟩ 20000).n = 2 ^ calibShift 20000 :=
  ⟨by decide, createSnrpFromTime_overflow ⟨[], 0, 0, 0⟩ 20000 (by decide)⟩


/-! ## Monotonicity of the total cost -/

theorem totalCost_createSnrpFromTime (s : ScryptSnrp) (t : Nat) (ht : 0 < t) :
    totalCost (createSnrpFromTime s t) =
      2 ^ (closedForm t).1 * (closedForm t).2.1 * (closedForm t).2.2 := by
  have hs : calibShift t = (closedForm t).1 := by rw [calibShift, calibrate_closed t ht]
  rw [totalCost, createSnrpFromTime_n, createSnrpFromTime_r, createSnrpFromTime_p,
    calibrate_closed t ht, hs]

theorem closedForm_cost_antitone (t1 t2 : Nat) (h1 : 0 < t1) (h12 : t1 ≤ t2) :
    2 ^ (closedForm t2).1 * (closedForm t2).2.1 * (closedForm t2).2.2 ≤
      2 ^ (closedForm t1).1 * (closedForm t1).2.1 * (closedForm t1).2.2 := by
  have a1 : 250000 / t2 ≤ 250000 / t1 := Nat.div_le_div_left h12 h1
  have a3 : 250000 / (32 * t2) ≤ 250000 / (32 * t1) :=
    Nat.div_le_div_left (by omega) (by omega)
  have a4 : 2 ^ (13 + 31250 / t2) ≤ 2 ^ (13 + 31250 / t1) :=
    Nat.pow_le_pow_right (by norm_num) (by have := Nat.div_le_div_left (a := 31250) h12 h1; omega)
  have b1 : 31250 ≤ t1 ∨ 8 ≤ 250000 / t1 := by
    rcases Nat.lt_or_ge t1 31250 with h | h
    · right; rw [Nat.le_div_iff_mul_le h1]; omega
    · left; exact h
  have b2 : t2 ≤ 15625 ∨ 250000 / t2 ≤ 15 := by
    rcases Nat.lt_or_ge 15625 t2 with h | h
    · right; apply Nat.le_of_lt_succ; rw [Nat.div_lt_iff_lt_mul (by omega)]; omega
    · left; exact h
  have b3 : 15625 < t1 ∨ 2 ^ 15 ≤ 2 ^ (13 + 31250 / t1) := by
    rcases Nat.lt_or_ge 15625 t1 with h | h
    · left; exact h
    · right
      have : 2 ≤ 31250 / t1 := by rw [Nat.le_div_iff_mul_le h1]; omega
      exact Nat.pow_le_pow_right (by norm_num) (by omega)
  have b4 : t2 < 7813 ∨ 2 ^ (13 + 31250 / t2) ≤ 2 ^ 16 := by
    rcases Nat.lt_or_ge t2 7813 with h | h
    · left; exact h
    · right
      have : 31250 / t2 < 4 := by rw [Nat.div_lt_iff_lt_mul (by omega)]; omega
      exact Nat.pow_le_pow_right (by norm_num) (by omega)
  have b5 : 7813 ≤ t1 ∨ 1 ≤ 250000 / (32 * t1) := by
    rcases Nat.lt_or_ge t1 7813 with h | h
    · right; rw [Nat.le_div_iff_mul_le (by omega)]; omega
    · left; exact h
  unfold closedForm
  split_ifs <;> dsimp only <;>
    (generalize 2 ^ (13 + 31250 / t1) = x1 at a4 b3 ⊢
     generalize 2 ^ (13 + 31250 / t2) = x2 at a4 b4 ⊢
     omega)

/-- C4: monotonicity: for measured times `0 < t1 ≤ t2`, the total cost `n * r * p` stored
for `t1` is at least the total cost stored for `t2`. -/
theorem createSnrpFromTime_cost_antitone (s1 s2 : ScryptSnrp) (t1 t2 : Nat) (h1 : 0 < t1)
    (h12 : t1 ≤ t2) :
    totalCost (createSnrpFromTime s2 t2) ≤ totalCost (createSnrpFromTime s1 t1) := by
  rw [totalCost_createSnrpFromTime s2 t2 (by omega), totalCost_createSnrpFromTime s1 t1 h1]
  exact closedForm_cost_antitone t1 t2 h1 h12

theorem createSnrpFromTime_cost_antitone_witness :
    0 < 5000 ∧ 5000 ≤ 20000 ∧
      totalCost (createSnrpFromTime ⟨[], 0, 0, 0⟩ 20000) ≤
        totalCost (createSnrpFromTime ⟨[], 0, 0, 0⟩ 5000) :=
  ⟨by decide, by decide,
    createSnrpFromTime_cost_antitone ⟨[], 0, 0, 0⟩ ⟨[], 0, 0, 0⟩ 5000 20000 (by decide)
      (by decide)⟩

/-! ## Scenarios -/

theorem calibrate_25000 : calibrate 25000 = (14, 10, 1) := by
  rw [calibrate_closed 25000 (by decide)]
  decide

theorem calibrate_2500000 : calibrate 2500000 = (14, 8, 1) := by
  rw [calibrate_closed 2500000 (by decide)]
  decide

theorem calibrate_250000 : calibrate 250000 = (14, 8, 1) := by
  rw [calibrate_closed 250000 (by decide)]
  decide

/-- C5 as stated fails: for a measured time of 25000 the stored `r` is not 8 together with
an exponent above the one stored for 250000. -/
theorem scenarioB_counterexample :
    ¬ ((createSnrpFromTime ⟨[], 0, 0, 0⟩ 25000).r = 8 ∧ calibShift 250000 < calibShift 25000) := by
  rw [createSnrpFromTime_r, calibShift, calibShift, calibrate_25000, calibrate_250000]
  decide

/-- C5, amended: for a measured time of 25000 the remainder is folded back into `r`, which
is stored as 10, and the cost exponent is 14 (`n = 16384`), the same exponent as the one
stored for the on-target time 250000; `p` is 1. -/
theorem scenarioB (s : ScryptSnrp) :
    (createSnrpFromTime s 25000).r = 10 ∧ calibShift 25000 = 14 ∧
      calibShift 25000 = calibShift 250000 ∧ (createSnrpFromTime s 25000).n = 16384 ∧
      (createSnrpFromTime s 25000).p = 1 := by
  rw [createSnrpFromTime_n, createSnrpFromTime_r, createSnrpFromTime_p, calibShift, calibShift,
    calibrate_25000, calibrate_250000]
  decide

/-- C6 as stated fails: for a measured time of 2500000 the cost exponent is not 1. -/
theorem scenarioC_counterexample :
    ¬ ((createSnrpFromTime ⟨[], 0, 0, 0⟩ 2500000).r = 8 ∧ calibShift 2500000 = 1 ∧
        (createSnrpFromTime ⟨[], 0, 0, 0⟩ 2500000).n = 2) := by
  rw [createSnrpFromTime_n, createSnrpFromTime_r, calibShift, calibrate_2500000]
  decide

/-- C6, amended: for a measured time of 2500000 the stored `r` is 8 and the cost exponent
is 14 (`n = 16384`): the estimate is floored at 1 and added to 13. -/
theorem scenarioC (s : ScryptSnrp) :
    (createSnrpFromTime s 2500000).r = 8 ∧ calibShift 2500000 = 14 ∧
      (createSnrpFromTime s 2500000).n = 16384 ∧ (estimate 2500000).1 = 13 + 1 := by
  rw [createSnrpFromTime_n, createSnrpFromTime_r, calibShift, calibrate_2500000,
    estimate_slow 2500000 (by decide)]
  decide

/-- C7: slow-device path: for every measured time `t ≥ 31250` the stored values are exactly
`r = 8`, `p = 1` and `n = 16384`, and no positive measured time gets a smaller `n`. -/
theorem createSnrpFromTime_slow (s : ScryptSnrp) (t : Nat) (ht : 31250 ≤ t) :
    (createSnrpFromTime s t).r = 8 ∧ (createSnrpFromTime s t).p = 1 ∧
      (createSnrpFromTime s t).n = 16384 ∧
      ∀ (s0 : ScryptSnrp) (u : Nat), 0 < u →
        (createSnrpFromTime s t).n ≤ (createSnrpFromTime s0 u).n := by
  have hc : calibrate t = (14, 8, 1) := by
    rw [calibrate_closed t (by omega), closedForm, if_pos ht]
  have hn : (createSnrpFromTime s t).n = 16384 := by
    rw [createSnrpFromTime_n, calibShift, hc]; rfl
  refine ⟨by rw [createSnrpFromTime_r, hc], by rw [createSnrpFromTime_p, hc], hn, ?_⟩
  intro s0 u hu
  obtain ⟨b1, -⟩ := closedForm_bounds u hu
  rw [hn, createSnrpFromTime_n, calibShift, calibrate_closed u hu]
  calc 16384 = 2 ^ 14 := by norm_num
    _ ≤ 2 ^ (closedForm u).1 := Nat.pow_le_pow_right (by norm_num) b1

theorem createSnrpFromTime_slow_witness :
    31250 ≤ 250000 ∧ (createSnrpFromTime ⟨[], 0, 0, 0⟩ 250000).r = 8 ∧
      (createSnrpFromTime ⟨[], 0, 0, 0⟩ 250000).p = 1 ∧
      (createSnrpFromTime ⟨[], 0, 0, 0⟩ 250000).n = 16384 ∧
      ∀ (s0 : ScryptSnrp) (u : Nat), 0 < u →
        (createSnrpFromTime ⟨[], 0, 0, 0⟩ 250000).n ≤ (createSnrpFromTime s0 u).n :=
  ⟨by decide, createSnrpFromTime_slow ⟨[], 0, 0, 0⟩ 250000 (by decide)⟩

/-- C8: the calibrator is a function of the measured time alone: for every `t > 0` and any
two prior states, the stored `n`, `r` and `p` coincide, and `salt` is left as it was. -/
theorem createSnrpFromTime_frame (s1 s2 : ScryptSnrp) (t : Nat) (_ht : 0 < t) :
    (createSnrpFromTime s1 t).n = (createSnrpFromTime s2 t).n ∧
      (createSnrpFromTime s1 t).r = (createSnrpFromTime s2 t).r ∧
      (createSnrpFromTime s1 t).p = (createSnrpFromTime s2 t).p ∧
      (createSnrpFromTime s1 t).salt = s1.salt ∧ (createSnrpFromTime s2 t).salt = s2.salt := by
  exact ⟨rfl, rfl, rfl, rfl, rfl⟩

theorem createSnrpFromTime_frame_witness :
    0 < 12000 ∧
      (createSnrpFromTime ⟨[1, 2], 5, 6, 7⟩ 12000).n = (createSnrpFromTime ⟨[3], 0, 9, 2⟩ 12000).n ∧
      (createSnrpFromTime ⟨[1, 2], 5, 6, 7⟩ 12000).r = (createSnrpFromTime ⟨[3], 0, 9, 2⟩ 12000).r ∧
      (createSnrpFromTime ⟨[1, 2], 5, 6, 7⟩ 12000).p = (createSnrpFromTime ⟨[3], 0, 9, 2⟩ 12000).p ∧
      (createSnrpFromTime ⟨[1, 2], 5, 6, 7⟩ 12000).salt = [1, 2] ∧
      (createSnrpFromTime ⟨[3], 0, 9, 2⟩ 12000).salt = [3] :=
  ⟨by decide, createSnrpFromTime_frame ⟨[1, 2], 5, 6, 7⟩ ⟨[3], 0, 9, 2⟩ 12000 (by decide)⟩


/-! ## `hash` and `create` -/

/-- C9: `hash` returns an error exactly when the primitive returns a non-zero code; on
success `result` holds the primitive's output, of length `size`; on error `result` is as
before; when `time` is non-null the elapsed time is written to it in both cases; the
primitive is called once, between the two clock readings, with the object's `salt`, `n`,
`r`, `p`, and the object is unchanged. -/
theorem hash_contract (env : Env) (self : ScryptSnrp) (result data : DataChunk)
    (time : Option Nat) (size : Nat) :
    ((hash env self result data time size).status ≠ Status.ok ↔
        (env.crypto_scrypt data self.salt self.n self.r self.p size).1 ≠ 0) ∧
      ((hash env self result data time size).status = Status.ok →
        (hash env self result data time size).result =
            (env.crypto_scrypt data self.salt self.n self.r self.p size).2.val ∧
          (hash env self result data time size).result.length = size) ∧
      ((hash env self result data time size).status ≠ Status.ok →
        (hash env self result data time size).result = result) ∧
      (time.isSome →
        (hash env self result data time size).time =
          some (elapsedMicros env.timerStart env.timerEnd)) ∧
      (hash env self result data time size).trace =
        [Event.gettimeofday, Event.crypto_scrypt data self.salt self.n self.r self.p size,
          Event.gettimeofday] ∧
      (hash env self result data time size).self = self := by
  have ht : time.isSome → time.map (fun _ => elapsedMicros env.timerStart env.timerEnd) =
      some (elapsedMicros env.timerStart env.timerEnd) := by
    cases time <;> simp
  by_cases hrc : (env.crypto_scrypt data self.salt self.n self.r self.p size).1 = 0
  · simp only [hash, hrc, ne_eq, not_true_eq_false, if_false, true_and, forall_const,
      IsEmpty.forall_iff, and_true]
    exact ⟨(env.crypto_scrypt data self.salt self.n self.r self.p size).2.property, ht⟩
  · simp only [hash, hrc, ne_eq, not_false_eq_true, if_true, true_and, forall_const,
      IsEmpty.forall_iff, and_true, reduceCtorEq]
    exact ht

theorem hash_contract_witness :
    (hash sampleEnv ⟨[1, 2, 3], 16384, 1, 1⟩ [] [4, 5] (some 0) 4).status = Status.ok ∧
      (hash sampleEnv ⟨[1, 2, 3], 16384, 1, 1⟩ [] [4, 5] (some 0) 4).result.length = 4 ∧
      (hash sampleEnv ⟨[1, 2, 3], 16384, 1, 1⟩ [] [4, 5] (some 0) 4).time =
        some (elapsedMicros sampleEnv.timerStart sampleEnv.timerEnd) :=
  ⟨rfl,
    ((hash_contract sampleEnv ⟨[1, 2, 3], 16384, 1, 1⟩ [] [4, 5] (some 0) 4).2.1 rfl).2,
    (hash_contract sampleEnv ⟨[1, 2, 3], 16384, 1, 1⟩ [] [4, 5] (some 0) 4).2.2.2.1 rfl⟩


/-- C10: `create` fails with the random source's error, without calling the primitive, when
salt generation fails; otherwise it calls the primitive exactly once, between two clock
readings, with the salt just generated (for a request of 32 bytes) as both input and
salt and `n = 16384`, `r = 1`, `p = 1`; it fails when that call returns a non-zero code;
and when the call succeeds `create` succeeds, the final salt is the generated one and the
final `n`, `r`, `p` are those `createSnrpFromTime` stores for the elapsed time of that
call. -/
theorem create_contract (env : Env) (self : ScryptSnrp) (defaultSize : Nat) :
    (∀ c, (env.randomData self.salt 32).1 = Status.error c →
        (create env self defaultSize).status = Status.error c ∧
          (create env self defaultSize).trace = [Event.randomData 32]) ∧
      ((env.randomData self.salt 32).1 = Status.ok →
        (create env self defaultSize).trace =
            [Event.randomData 32, Event.gettimeofday,
              Event.crypto_scrypt (env.randomData self.salt 32).2
                (env.randomData self.salt 32).2 16384 1 1 defaultSize,
              Event.gettimeofday] ∧
          ((env.crypto_scrypt (env.randomData self.salt 32).2
                (env.randomData self.salt 32).2 16384 1 1 defaultSize).1 ≠ 0 →
            (create env self defaultSize).status =
              Status.error ErrorCode.ABC_CC_ScryptError) ∧
          ((env.crypto_scrypt (env.randomData self.salt 32).2
                (env.randomData self.salt 32).2 16384 1 1 defaultSize).1 = 0 →
            (create env self defaultSize).status = Status.ok ∧
              (create env self defaultSize).self.salt = (env.randomData self.salt 32).2 ∧
              ∀ s0 : ScryptSnrp,
                (create env self defaultSize).self.n =
                    (createSnrpFromTime s0 (elapsedMicros env.timerStart env.timerEnd)).n ∧
                  (create env self defaultSize).self.r =
                    (createSnrpFromTime s0 (elapsedMicros env.timerStart env.timerEnd)).r ∧
                  (create env self defaultSize).self.p =
                    (createSnrpFromTime s0 (elapsedMicros env.timerStart env.timerEnd)).p)) := by
  refine ⟨?_, ?_⟩
  · intro c hc
    simp [create, SCRYPT_DEFAULT_SALT_LENGTH, hc]
  · intro hok
    by_cases hrc : (env.crypto_scrypt (env.randomData self.salt 32).2
        (env.randomData self.salt 32).2 16384 1 1 defaultSize).1 = 0
    · simp [create, hash, SCRYPT_DEFAULT_SALT_LENGTH, SCRYPT_DEFAULT_CLIENT_N,
        SCRYPT_DEFAULT_CLIENT_N_SHIFT, SCRYPT_DEFAULT_CLIENT_R, SCRYPT_DEFAULT_CLIENT_P, hok, hrc,
        createSnrpFromTime]
    · simp [create, hash, SCRYPT_DEFAULT_SALT_LENGTH, SCRYPT_DEFAULT_CLIENT_N,
        SCRYPT_DEFAULT_CLIENT_N_SHIFT, SCRYPT_DEFAULT_CLIENT_R, SCRYPT_DEFAULT_CLIENT_P, hok, hrc]

theorem create_contract_witness :
    (sampleEnv.randomData [] 32).1 = Status.ok ∧
      (sampleEnv.crypto_scrypt (sampleEnv.randomData [] 32).2 (sampleEnv.randomData [] 32).2
        16384 1 1 32).1 = 0 ∧
      (create sampleEnv ⟨[], 0, 0, 0⟩ 32).trace =
        [Event.randomData 32, Event.gettimeofday,
          Event.crypto_scrypt (sampleEnv.randomData [] 32).2 (sampleEnv.randomData [] 32).2
            16384 1 1 32,
          Event.gettimeofday] ∧
      (create sampleEnv ⟨[], 0, 0, 0⟩ 32).status = Status.ok ∧
      (create sampleEnv ⟨[], 0, 0, 0⟩ 32).self.salt = (sampleEnv.randomData [] 32).2 :=
  ⟨rfl, rfl, ((create_contract sampleEnv ⟨[], 0, 0, 0⟩ 32).2 rfl).1,
    (((create_contract sampleEnv ⟨[], 0, 0, 0⟩ 32).2 rfl).2.2 rfl).1,
    (((create_contract sampleEnv ⟨[], 0, 0, 0⟩ 32).2 rfl).2.2 rfl).2.1⟩


/-! ## The fixed parameter table -/

/-- C11: `usernameSnrp` returns the `mainnet` entry when `isTestnet()` is false and the
`testnet` entry when it is true; the mainnet salt is the 32 bytes
`b5865ffb9fa7b3bfe4b2384d47ce831ee22a4a9d5c34c7ef7d21467cc758f81b` with
`n = 16384`, `r = 1`, `p = 1`; the testnet entry has the same `n`, `r`, `p` and a 32-byte
salt different from the mainnet one. -/
theorem usernameSnrp_table :
    usernameSnrp false = mainnet ∧ usernameSnrp true = testnet ∧
      (usernameSnrp false).salt.length = 32 ∧
      bigEndian (usernameSnrp false).salt =
        0xb5865ffb9fa7b3bfe4b2384d47ce831ee22a4a9d5c34c7ef7d21467cc758f81b ∧
      (usernameSnrp false).n = 16384 ∧ (usernameSnrp false).r = 1 ∧
      (usernameSnrp false).p = 1 ∧
      (usernameSnrp true).n = 16384 ∧ (usernameSnrp true).r = 1 ∧
      (usernameSnrp true).p = 1 ∧
      (usernameSnrp true).salt.length = 32 ∧
      (usernameSnrp true).salt ≠ (usernameSnrp false).salt := by
  refine ⟨rfl, rfl, rfl, ?_, rfl, rfl, rfl, rfl, rfl, rfl, rfl, ?_⟩
  · decide
  · decide


/-! ## Where the headroom goes -/

/-- C12: for every measured time `t > 0`, a stored `p > 1` comes with `n = 131072`
(`shift = 17`) and `r = 8`; and for `1 ≤ t ≤ 7812` the stored `p` is
`floor(250000 / (32 * t))`. -/
theorem createSnrpFromTime_headroom (s : ScryptSnrp) (t : Nat) (ht : 0 < t) :
    (1 < (createSnrpFromTime s t).p →
        (createSnrpFromTime s t).n = 131072 ∧ calibShift t = 17 ∧
          (createSnrpFromTime s t).r = 8) ∧
      (t ≤ 7812 → (createSnrpFromTime s t).p = 250000 / (32 * t)) := by
  have hs : calibShift t = (closedForm t).1 := by rw [calibShift, calibrate_closed t ht]
  rw [createSnrpFromTime_n, createSnrpFromTime_r, createSnrpFromTime_p, calibrate_closed t ht, hs]
  unfold closedForm
  split_ifs with h1 h2 h3 <;> dsimp only
  · exact ⟨fun h => absurd h (by decide), fun h => by omega⟩
  · exact ⟨fun h => absurd h (by decide), fun h => by omega⟩
  · exact ⟨fun h => absurd h (by decide), fun h => by omega⟩
  · exact ⟨fun _ => ⟨by norm_num, rfl, rfl⟩, fun _ => rfl⟩

theorem createSnrpFromTime_headroom_witness :
    0 < 100 ∧
      (1 < (createSnrpFromTime ⟨[], 0, 0, 0⟩ 100).p →
        (createSnrpFromTime ⟨[], 0, 0, 0⟩ 100).n = 131072 ∧ calibShift 100 = 17 ∧
          (createSnrpFromTime ⟨[], 0, 0, 0⟩ 100).r = 8) ∧
      (100 ≤ 7812 → (createSnrpFromTime ⟨[], 0, 0, 0⟩ 100).p = 250000 / (32 * 100)) :=
  ⟨by decide, createSnrpFromTime_headroom ⟨[], 0, 0, 0⟩ 100 (by decide)⟩

/-- C13: for every measured time `t > 0` the stored `r` and `p` satisfy `r * p < 2 ^ 30`,
the invariant named in the comment at line 110; the loop under that comment tests
`r * nShift` instead, and on its own leaves `r = p = 65536` (product `2 ^ 32`) as they
are. -/
theorem createSnrpFromTime_r_mul_p (s : ScryptSnrp) (t : Nat) (ht : 0 < t) :
    (createSnrpFromTime s t).r * (createSnrpFromTime s t).p < 2 ^ 30 ∧
      ovLoop 17 65536 65536 = (65536, 65536) := by
  obtain ⟨b1, b2, b3, b4, b5, b6⟩ := closedForm_bounds t ht
  refine ⟨?_, ovLoop_of_le 17 65536 65535 (by norm_num)⟩
  rw [createSnrpFromTime_r, createSnrpFromTime_p, calibrate_closed t ht]
  calc (closedForm t).2.1 * (closedForm t).2.2 ≤ 15 * 7812 := Nat.mul_le_mul b4 b6
    _ < 2 ^ 30 := by norm_num

theorem createSnrpFromTime_r_mul_p_witness :
    0 < 1 ∧
      (createSnrpFromTime ⟨[], 0, 0, 0⟩ 1).r * (createSnrpFromTime ⟨[], 0, 0, 0⟩ 1).p < 2 ^ 30 ∧
      ovLoop 17 65536 65536 = (65536, 65536) :=
  ⟨by decide, createSnrpFromTime_r_mul_p ⟨[], 0, 0, 0⟩ 1 (by decide)⟩

/-! ## Closed form and bounds of the stored parameters -/

/-- C18: for every measured time `t > 0` the stored `(shift, r, p)`, with `n = 2 ^ shift`,
is `(14, 8, 1)` for `t ≥ 31250`, `(14, floor(250000 / t), 1)` for `15625 < t < 31250`,
`(13 + floor(31250 / t), 8, 1)` for `7813 ≤ t ≤ 15625` and
`(17, 8, floor(250000 / (32 * t)))` for `1 ≤ t ≤ 7812`; and neither of the two loops nor
the final floor changes the estimate of lines 39-82. -/
theorem createSnrpFromTime_closed (s : ScryptSnrp) (t : Nat) (ht : 0 < t) :
    (createSnrpFromTime s t).n = 2 ^ calibShift t ∧
      (calibShift t, (createSnrpFromTime s t).r, (createSnrpFromTime s t).p) = closedForm t ∧
      (31250 ≤ t → calibrate t = (14, 8, 1)) ∧
      (15625 < t → t < 31250 → calibrate t = (14, 250000 / t, 1)) ∧
      (7813 ≤ t → t ≤ 15625 → calibrate t = (13 + 31250 / t, 8, 1)) ∧
      (t ≤ 7812 → calibrate t = (17, 8, 250000 / (32 * t))) ∧
      memLoop (estimate t).1 (estimate t).2.1 = ((estimate t).1, (estimate t).2.1) ∧
      ovLoop (estimate t).1 (estimate t).2.1 (estimate t).2.2 =
        ((estimate t).2.1, (estimate t).2.2) ∧
      calibrate t = estimate t := by
  have hc := calibrate_closed t ht
  have hcf : ∀ c : Nat × Nat × Nat, closedForm t = c → calibrate t = c := fun c h => hc.trans h
  obtain ⟨b1, b2, b3, b4, b5, b6⟩ := closedForm_bounds t ht
  have he : estimate t = closedForm t := by
    unfold closedForm
    split_ifs with h1 h2 h3
    · exact estimate_slow t h1
    · exact estimate_mid t h2 (by omega)
    · exact estimate_fast t h3 (by omega)
    · exact estimate_max t ht (by omega)
  obtain ⟨hm, ho⟩ := corrections_noop (closedForm t).1 (closedForm t).2.1 (closedForm t).2.2
    (by omega) b2 (by omega) b4 b5
  refine ⟨createSnrpFromTime_n s t, ?_, ?_, ?_, ?_, ?_, ?_, ?_, ?_⟩
  · rw [createSnrpFromTime_r, createSnrpFromTime_p, calibShift, hc]
  · intro h1
    apply hcf
    rw [closedForm, if_pos h1]
  · intro h1 h2
    apply hcf
    rw [closedForm, if_neg (by omega), if_pos h1]
  · intro h1 h2
    apply hcf
    rw [closedForm, if_neg (by omega), if_neg (by omega), if_pos h1]
  · intro h1
    apply hcf
    rw [closedForm, if_neg (by omega), if_neg (by omega), if_neg (by omega)]
  · rw [he]; exact hm
  · rw [he]; exact ho
  · rw [he]; exact hc

theorem createSnrpFromTime_closed_witness :
    0 < 9000 ∧ calibrate 9000 = (16, 8, 1) ∧ calibrate 9000 = estimate 9000 :=
  ⟨by decide,
    (createSnrpFromTime_closed ⟨[], 0, 0, 0⟩ 9000 (by decide)).2.2.2.2.1 (by decide) (by decide),
    (createSnrpFromTime_closed ⟨[], 0, 0, 0⟩ 9000 (by decide)).2.2.2.2.2.2.2.2⟩

/-- C19: for every measured time `t > 0` the stored parameters satisfy
`16384 ≤ n ≤ 131072`, `8 ≤ r ≤ 15` and `1 ≤ p ≤ 7812`, so they are never below the fixed
server defaults `n = 16384`, `r = 1`, `p = 1`. -/
theorem createSnrpFromTime_bounds (s : ScryptSnrp) (t : Nat) (ht : 0 < t) :
    (16384 ≤ (createSnrpFromTime s t).n ∧ (createSnrpFromTime s t).n ≤ 131072 ∧
        8 ≤ (createSnrpFromTime s t).r ∧ (createSnrpFromTime s t).r ≤ 15 ∧
        1 ≤ (createSnrpFromTime s t).p ∧ (createSnrpFromTime s t).p ≤ 7812) ∧
      SCRYPT_DEFAULT_SERVER_N ≤ (createSnrpFromTime s t).n ∧
      SCRYPT_DEFAULT_SERVER_R ≤ (createSnrpFromTime s t).r ∧
      SCRYPT_DEFAULT_SERVER_P ≤ (createSnrpFromTime s t).p := by
  obtain ⟨b1, b2, b3, b4, b5, b6⟩ := closedForm_bounds t ht
  have hs : calibShift t = (closedForm t).1 := by rw [calibShift, calibrate_closed t ht]
  rw [createSnrpFromTime_n, createSnrpFromTime_r, createSnrpFromTime_p, calibrate_closed t ht, hs]
  have e1 : 2 ^ 14 ≤ 2 ^ (closedForm t).1 := Nat.pow_le_pow_right (by norm_num) b1
  have e2 : 2 ^ (closedForm t).1 ≤ 2 ^ 17 := Nat.pow_le_pow_right (by norm_num) b2
  norm_num at e1 e2
  simp only [SCRYPT_DEFAULT_SERVER_N, SCRYPT_DEFAULT_SERVER_R, SCRYPT_DEFAULT_SERVER_P]
  exact ⟨⟨e1, e2, b3, b4, b5, b6⟩, e1, by omega, b5⟩

theorem createSnrpFromTime_bounds_witness :
    0 < 16000 ∧
      (16384 ≤ (createSnrpFromTime ⟨[], 0, 0, 0⟩ 16000).n ∧
        (createSnrpFromTime ⟨[], 0, 0, 0⟩ 16000).n ≤ 131072 ∧
        8 ≤ (createSnrpFromTime ⟨[], 0, 0, 0⟩ 16000).r ∧
        (createSnrpFromTime ⟨[], 0, 0, 0⟩ 16000).r ≤ 15 ∧
        1 ≤ (createSnrpFromTime ⟨[], 0, 0, 0⟩ 16000).p ∧
        (createSnrpFromTime ⟨[], 0, 0, 0⟩ 16000).p ≤ 7812) ∧
      SCRYPT_DEFAULT_SERVER_N ≤ (createSnrpFromTime ⟨[], 0, 0, 0⟩ 16000).n ∧
      SCRYPT_DEFAULT_SERVER_R ≤ (createSnrpFromTime ⟨[], 0, 0, 0⟩ 16000).r ∧
      SCRYPT_DEFAULT_SERVER_P ≤ (createSnrpFromTime ⟨[], 0, 0, 0⟩ 16000).p :=
  ⟨by decide, createSnrpFromTime_bounds ⟨[], 0, 0, 0⟩ 16000 (by decide)⟩


/-! ## The memory loop in isolation -/

theorem memInner_spec (k c q : Nat) (hc : 128 * ((1 <<< k) % 2 ^ 64) = c) (hq : 1 ≤ q)
    (hq1 : c * q ≤ 0x1F400000) (hq2 : 0x1F400000 < c * (q + 1)) :
    ∀ r : Nat, 1 ≤ r → c * r < 2 ^ 64 → memInner k r = (min r q, true) := by
  intro r
  induction r with
  | zero => intro h; omega
  | succ r ih =>
    intro _ hlt
    unfold memInner
    simp only [hc, Nat.mod_eq_of_lt hlt]
    by_cases hgt : c * (r + 1) > 0x1F400000
    · rw [if_pos hgt]
      have h1 : c * q < c * (r + 1) := lt_of_le_of_lt hq1 hgt
      have h2 : q < r + 1 := Nat.lt_of_mul_lt_mul_left h1
      have h3 : c * r < 2 ^ 64 := lt_of_le_of_lt (Nat.mul_le_mul_left c (Nat.le_succ r)) hlt
      rw [ih (by omega) h3, Nat.min_eq_right (by omega), Nat.min_eq_right (by omega)]
    · rw [if_neg hgt]
      have h1 : c * (r + 1) < c * (q + 1) := lt_of_le_of_lt (Nat.le_of_not_gt hgt) hq2
      have h2 : r + 1 < q + 1 := Nat.lt_of_mul_lt_mul_left h1
      rw [Nat.min_eq_left (by omega)]

theorem memInner_fail (k c : Nat) (hc : 128 * ((1 <<< k) % 2 ^ 64) = c)
    (hB : 0x1F400000 < c) : ∀ r : Nat, c * r < 2 ^ 64 → memInner k r = (0, false) := by
  intro r
  induction r with
  | zero => intro _; rfl
  | succ r ih =>
    intro hlt
    unfold memInner
    simp only [hc, Nat.mod_eq_of_lt hlt]
    have h1 : c ≤ c * (r + 1) := Nat.le_mul_of_pos_right c (Nat.succ_pos r)
    have h3 : c * r < 2 ^ 64 := lt_of_le_of_lt (Nat.mul_le_mul_left c (Nat.le_succ r)) hlt
    rw [if_pos (by omega), ih h3]

theorem memLoop_low (s r : Nat) (hs : 2 ≤ s) (hs21 : s ≤ 21) (hr : r < 2 ^ 32) :
    memLoop s r = (s, min (max r 1) (0x1F400000 / (128 * 2 ^ s))) := by
  obtain ⟨k, rfl⟩ : ∃ j, s = j + 2 := ⟨s - 2, by omega⟩
  have hp : 2 ^ (k + 2) ≤ 2 ^ 21 := Nat.pow_le_pow_right (by norm_num) hs21
  have hp0 : 0 < 2 ^ (k + 2) := Nat.pow_pos (by norm_num)
  have hc : 128 * ((1 <<< (k + 2)) % 2 ^ 64) = 128 * 2 ^ (k + 2) := by
    rw [Nat.one_shiftLeft, Nat.mod_eq_of_lt (by omega)]
  have hcpos : 0 < 128 * 2 ^ (k + 2) := by omega
  have hq : 1 ≤ 0x1F400000 / (128 * 2 ^ (k + 2)) := by
    rw [Nat.le_div_iff_mul_le hcpos]; omega
  have hr1 : (if r = 0 then 1 else r) = max r 1 := by
    split_ifs with h0
    · subst h0; rfl
    · rw [Nat.max_eq_left (by omega)]
  have hm1 : 1 ≤ max r 1 := Nat.le_max_right r 1
  have hm2 : max r 1 < 2 ^ 32 := by
    rcases Nat.le_total r 1 with h | h
    · rw [Nat.max_eq_right h]; norm_num
    · rw [Nat.max_eq_left h]; exact hr
  have hlt : 128 * 2 ^ (k + 2) * max r 1 < 2 ^ 64 := by
    calc 128 * 2 ^ (k + 2) * max r 1 ≤ 128 * 2 ^ 21 * max r 1 :=
          Nat.mul_le_mul_right _ (by omega)
      _ < 128 * 2 ^ 21 * 2 ^ 32 := Nat.mul_lt_mul_of_pos_left hm2 (by norm_num)
      _ < 2 ^ 64 := by norm_num
  have hin := memInner_spec (k + 2) (128 * 2 ^ (k + 2)) (0x1F400000 / (128 * 2 ^ (k + 2))) hc hq
    (Nat.mul_div_le _ _) (Nat.lt_mul_div_succ _ hcpos) (max r 1) hm1 hlt
  unfold memLoop
  simp only [hr1, hin, if_true]

theorem memLoop_high (s r : Nat) (hs : 22 ≤ s) (hs24 : s ≤ 24) (hr : r < 2 ^ 32) :
    memLoop s r = (21, 1) := by
  have hr1 : (if r = 0 then 1 else r) < 2 ^ 32 := by
    split_ifs
    · norm_num
    · exact hr
  have h21 : memLoop 21 0 = (21, 1) := by decide
  have h22 : ∀ x : Nat, x < 2 ^ 32 → memLoop 22 x = (21, 1) := by
    intro x hx
    have hx1 : (if x = 0 then 1 else x) < 2 ^ 32 := by
      split_ifs
      · norm_num
      · exact hx
    have hf := memInner_fail 22 (128 * 2 ^ 22) (by decide) (by norm_num)
      (if x = 0 then 1 else x) (by omega)
    unfold memLoop
    simp only [hf, Bool.false_eq_true, if_false, h21]
  have h23 : ∀ x : Nat, x < 2 ^ 32 → memLoop 23 x = (21, 1) := by
    intro x hx
    have hx1 : (if x = 0 then 1 else x) < 2 ^ 32 := by
      split_ifs
      · norm_num
      · exact hx
    have hf := memInner_fail 23 (128 * 2 ^ 23) (by decide) (by norm_num)
      (if x = 0 then 1 else x) (by omega)
    unfold memLoop
    simp only [hf, Bool.false_eq_true, if_false, h22 0 (by norm_num)]
  have h24 : ∀ x : Nat, x < 2 ^ 32 → memLoop 24 x = (21, 1) := by
    intro x hx
    have hx1 : (if x = 0 then 1 else x) < 2 ^ 32 := by
      split_ifs
      · norm_num
      · exact hx
    have hf := memInner_fail 24 (128 * 2 ^ 24) (by decide) (by norm_num)
      (if x = 0 then 1 else x) (by omega)
    unfold memLoop
    simp only [hf, Bool.false_eq_true, if_false, h23 0 (by norm_num)]
  interval_cases s
  · exact h22 r hr
  · exact h23 r hr
  · exact h24 r hr


/-- C14: started from an exponent `2 ≤ s ≤ 24` and any `r < 2 ^ 32`, the memory loop
followed by the final floor ends with `s' ≥ 1`, `r' ≥ 1` and
`128 * 2 ^ s' * r' ≤ 0x1F400000`; for `s ≤ 21` the exponent is kept and
`r' = min (max r 1) (0x1F400000 / (128 * 2 ^ s))`; and the exponent changes only when the
bound fails at `r = 1`. -/
theorem memCorrection_isolated (s r : Nat) (hs : 2 ≤ s) (hs24 : s ≤ 24) (hr : r < 2 ^ 32) :
    1 ≤ (memCorrection s r).1 ∧ 1 ≤ (memCorrection s r).2 ∧
      128 * 2 ^ (memCorrection s r).1 * (memCorrection s r).2 ≤ 0x1F400000 ∧
      (s ≤ 21 → (memCorrection s r).1 = s ∧
        (memCorrection s r).2 = min (max r 1) (0x1F400000 / (128 * 2 ^ s))) ∧
      ((memCorrection s r).1 ≠ s → 0x1F400000 < 128 * 2 ^ s * 1) := by
  rcases Nat.lt_or_ge 21 s with hhigh | hlow
  · have hm : memCorrection s r = (21, 1) := by
      unfold memCorrection
      rw [memLoop_high s r (by omega) hs24 hr]
      rfl
    rw [hm]
    have hp : 2 ^ 22 ≤ 2 ^ s := Nat.pow_le_pow_right (by norm_num) (by omega)
    refine ⟨by norm_num, by norm_num, by norm_num, fun h => by omega, fun _ => ?_⟩
    calc 0x1F400000 < 128 * 2 ^ 22 * 1 := by norm_num
      _ ≤ 128 * 2 ^ s * 1 := Nat.mul_le_mul_right _ (Nat.mul_le_mul_left _ hp)
  · have hp : 2 ^ s ≤ 2 ^ 21 := Nat.pow_le_pow_right (by norm_num) hlow
    have hp0 : 0 < 2 ^ s := Nat.pow_pos (by norm_num)
    have hcpos : 0 < 128 * 2 ^ s := by omega
    have hq : 1 ≤ 0x1F400000 / (128 * 2 ^ s) := by
      rw [Nat.le_div_iff_mul_le hcpos]; omega
    have hmin : 1 ≤ min (max r 1) (0x1F400000 / (128 * 2 ^ s)) :=
      Nat.le_min.mpr ⟨Nat.le_max_right r 1, hq⟩
    have hm : memCorrection s r = (s, min (max r 1) (0x1F400000 / (128 * 2 ^ s))) := by
      unfold memCorrection
      rw [memLoop_low s r hs hlow hr]
      simp only
      rw [if_neg (by omega), if_neg (by omega)]
    rw [hm]
    refine ⟨by simp only; omega, hmin, ?_, fun _ => ⟨rfl, rfl⟩, fun h => absurd rfl h⟩
    calc 128 * 2 ^ s * min (max r 1) (0x1F400000 / (128 * 2 ^ s))
        ≤ 128 * 2 ^ s * (0x1F400000 / (128 * 2 ^ s)) :=
          Nat.mul_le_mul_left _ (Nat.min_le_right _ _)
      _ ≤ 0x1F400000 := Nat.mul_div_le _ _

theorem memCorrection_isolated_witness :
    2 ≤ 20 ∧ 20 ≤ 24 ∧ 7 < 2 ^ 32 ∧ (memCorrection 20 7).1 = 20 ∧
      (memCorrection 20 7).2 = min (max 7 1) (0x1F400000 / (128 * 2 ^ 20)) :=
  ⟨by decide, by decide, by decide,
    (memCorrection_isolated 20 7 (by decide) (by decide) (by decide)).2.2.2.1 (by decide)⟩

/-! ## The overflow loop in isolation -/

/-- C16: for timestamps with both microsecond fields in `[0, 999999]`, the end not earlier
than the start and a true difference below `2 ^ 64` microseconds, the value computed at
lines 180-182 in 64-bit unsigned arithmetic is the true difference in microseconds, also
when `timerEnd.tv_usec < timerStart.tv_usec`. -/
theorem elapsedMicros_exact (timerStart timerEnd : Timeval)
    (_hs0 : 0 ≤ timerStart.tv_usec) (_hs1 : timerStart.tv_usec ≤ 999999)
    (_he0 : 0 ≤ timerEnd.tv_usec) (_he1 : timerEnd.tv_usec ≤ 999999)
    (hle : 0 ≤ 1000000 * (timerEnd.tv_sec - timerStart.tv_sec) + timerEnd.tv_usec -
      timerStart.tv_usec)
    (hlt : 1000000 * (timerEnd.tv_sec - timerStart.tv_sec) + timerEnd.tv_usec -
      timerStart.tv_usec < 2 ^ 64) :
    ((elapsedMicros timerStart timerEnd : Nat) : Int) =
      1000000 * (timerEnd.tv_sec - timerStart.tv_sec) + timerEnd.tv_usec -
        timerStart.tv_usec := by
  unfold elapsedMicros
  simp only
  norm_num at hlt ⊢
  omega

theorem elapsedMicros_exact_witness :
    (200000 : Int) < 900000 ∧
      ((elapsedMicros ⟨100, 900000⟩ ⟨101, 200000⟩ : Nat) : Int) =
        1000000 * (101 - 100) + 200000 - 900000 :=
  ⟨by decide,
    elapsedMicros_exact ⟨100, 900000⟩ ⟨101, 200000⟩ (by decide) (by decide) (by decide)
      (by decide) (by decide) (by decide)⟩


/-! ## The memory ceiling -/

theorem memInner_fst_le (k : Nat) : ∀ r : Nat, (memInner k r).1 ≤ r := by
  intro r
  induction r with
  | zero => exact le_rfl
  | succ r ih =>
    unfold memInner
    simp only
    split_ifs
    · exact Nat.le_succ_of_le ih
    · exact le_rfl

/-- C17 as stated fails: the memory check does not accept exactly the requirements of at
most `512 * 2 ^ 20` bytes: at `nShift = 14`, `r = 255` the requirement
`128 * 2 ^ 14 * 255` is below `512 * 2 ^ 20`, yet the check turns `r = 255` down. -/
theorem memInner_ceiling_counterexample :
    ¬ (memInner 14 255 = (255, true) ↔ 128 * 2 ^ 14 * 255 ≤ 512 * 2 ^ 20) := by
  intro h
  have h1 : memInner 14 255 = (255, true) := h.mpr (by norm_num)
  have h3 : memInner 14 255 = (250, true) := by decide
  rw [h3] at h1
  exact absurd h1 (by decide)

/-- C17, amended: the ceiling the memory check compares with, `0x1F400000`, is
`500 * 2 ^ 20` bytes (500 MiB), below `512 * 2 ^ 20`: for an exponent `k ≤ 24` and
`1 ≤ r < 2 ^ 32` the check of line 93 accepts `r` at its first test exactly when
`128 * 2 ^ k * r ≤ 500 * 2 ^ 20`. -/
theorem memInner_ceiling_500MiB (k r : Nat) (hk : k ≤ 24) (hr1 : 1 ≤ r) (hr : r < 2 ^ 32) :
    (memInner k r = (r, true) ↔ 128 * 2 ^ k * r ≤ 500 * 2 ^ 20) ∧
      500 * 2 ^ 20 = 0x1F400000 ∧ 500 * 2 ^ 20 < 512 * 2 ^ 20 := by
  refine ⟨?_, by norm_num, by norm_num⟩
  obtain ⟨j, rfl⟩ : ∃ j, r = j + 1 := ⟨r - 1, by omega⟩
  have hp : 2 ^ k ≤ 2 ^ 24 := Nat.pow_le_pow_right (by norm_num) hk
  have hc : 128 * ((1 <<< k) % 2 ^ 64) = 128 * 2 ^ k := by
    rw [Nat.one_shiftLeft, Nat.mod_eq_of_lt (by omega)]
  have hlt : 128 * 2 ^ k * (j + 1) < 2 ^ 64 := by
    calc 128 * 2 ^ k * (j + 1) ≤ 128 * 2 ^ 24 * (j + 1) :=
          Nat.mul_le_mul_right _ (by omega)
      _ < 128 * 2 ^ 24 * 2 ^ 32 := Nat.mul_lt_mul_of_pos_left hr (by norm_num)
      _ < 2 ^ 64 := by norm_num
  have hmod : (128 * ((1 <<< k) % 2 ^ 64) * (j + 1)) % 2 ^ 64 = 128 * 2 ^ k * (j + 1) := by
    rw [hc, Nat.mod_eq_of_lt hlt]
  constructor
  · intro h
    by_contra hgt
    have hcond : (128 * ((1 <<< k) % 2 ^ 64) * (j + 1)) % 2 ^ 64 > 0x1F400000 := by
      rw [hmod]; omega
    have hstep : memInner k (j + 1) = memInner k j := by
      rw [memInner]
      exact if_pos hcond
    have hfst := memInner_fst_le k j
    rw [← hstep, h] at hfst
    simp only at hfst
    omega
  · intro h
    apply memInner_of_le
    rw [hmod]
    omega

theorem memInner_ceiling_500MiB_witness :
    14 ≤ 24 ∧ 1 ≤ 250 ∧ 250 < 2 ^ 32 ∧ memInner 14 250 = (250, true) ∧
      500 * 2 ^ 20 = 0x1F400000 :=
  ⟨by decide, by decide, by decide,
    (memInner_ceiling_500MiB 14 250 (by decide) (by decide) (by decide)).1.mpr (by norm_num),
    (memInner_ceiling_500MiB 14 250 (by decide) (by decide) (by decide)).2.1⟩

end abcd
